import Mathlib

/-!
Verification of the camera controller and render-resource lifecycle of the
TNM090 particle-system renderer (`src/renderer.cpp`).

The C++ code is shallowly embedded here:
* `glm::vec2` / `glm::vec3` become the structures `Vec2` / `Vec3` over `ℝ`;
* `glm::quat` becomes `Quat`; `glm::angleAxis` and the glm quaternion-vector
  product (`v + ((uv * q.w) + uuv) * 2`) are translated literally;
* the mutable fields of the `Renderer` class are split into `CamState`
  (camera pose, mouse bookkeeping, cached view-projection matrix) and
  `ResState` (GPU handles, readiness flags, particle mirror buffer);
  member functions become state-passing functions;
* GL handle creation (`glGenBuffers` / `glGenTextures`) is modelled by a
  monotone name counter starting at 1, so generated names are nonzero;
  pointer-valued handles (`Texture*`, `ProgramObject*`) are modelled by
  their non-nullness as a `Bool`.

Floating point arithmetic is idealised as real arithmetic.
-/

noncomputable section

open Real

/-- Component-wise 2-vector over the reals, mirroring `glm::vec2`. -/
structure Vec2 where
  x : ℝ
  y : ℝ

/-- Component-wise 3-vector over the reals, mirroring `glm::vec3`. -/
structure Vec3 where
  x : ℝ
  y : ℝ
  z : ℝ

namespace Vec2

/-- `glm::vec2` subtraction. -/
def sub (a b : Vec2) : Vec2 := ⟨a.x - b.x, a.y - b.y⟩

/-- Scalar multiplication of a `glm::vec2`. -/
def smul (c : ℝ) (a : Vec2) : Vec2 := ⟨c * a.x, c * a.y⟩

/-- Component-wise `glm::min` on 2-vectors. -/
def vmin (a b : Vec2) : Vec2 := ⟨min a.x b.x, min a.y b.y⟩

/-- Component-wise `glm::max` on 2-vectors. -/
def vmax (a b : Vec2) : Vec2 := ⟨max a.x b.x, max a.y b.y⟩

end Vec2

namespace Vec3

/-- `glm::vec3` addition. -/
def add (a b : Vec3) : Vec3 := ⟨a.x + b.x, a.y + b.y, a.z + b.z⟩

/-- `glm::vec3` subtraction. -/
def sub (a b : Vec3) : Vec3 := ⟨a.x - b.x, a.y - b.y, a.z - b.z⟩

/-- Scalar multiplication of a `glm::vec3`. -/
def smul (c : ℝ) (a : Vec3) : Vec3 := ⟨c * a.x, c * a.y, c * a.z⟩

/-- `glm::dot` on 3-vectors. -/
def dot (a b : Vec3) : ℝ := a.x * b.x + a.y * b.y + a.z * b.z

/-- `glm::cross` on 3-vectors. -/
def cross (a b : Vec3) : Vec3 :=
  ⟨a.y * b.z - a.z * b.y, a.z * b.x - a.x * b.z, a.x * b.y - a.y * b.x⟩

/-- Squared Euclidean length of a 3-vector. -/
def normSq (a : Vec3) : ℝ := a.x ^ 2 + a.y ^ 2 + a.z ^ 2

/-- `glm::length`: the Euclidean length of a 3-vector. -/
def norm (a : Vec3) : ℝ := Real.sqrt (normSq a)

/-- `glm::normalize`: division of a vector by its length (the zero vector is
sent to zero, standing in for the undefined `0/0` of the C++ code). -/
def normalize (a : Vec3) : Vec3 := smul (norm a)⁻¹ a

/-- The zero vector. -/
def zero : Vec3 := ⟨0, 0, 0⟩

end Vec3

/-- Quaternion with real components, mirroring `glm::quat` (scalar part `w`,
vector part `(x, y, z)`). -/
structure Quat where
  w : ℝ
  x : ℝ
  y : ℝ
  z : ℝ

namespace Quat

/-- `glm::angleAxis angle axis`: the quaternion
`(cos (angle/2), sin (angle/2) * axis)`. -/
def angleAxis (angle : ℝ) (axis : Vec3) : Quat :=
  ⟨Real.cos (angle / 2),
   Real.sin (angle / 2) * axis.x,
   Real.sin (angle / 2) * axis.y,
   Real.sin (angle / 2) * axis.z⟩

/-- The Hamilton product of two quaternions, as implemented by
`glm::operator*(quat, quat)`. -/
def mul (p q : Quat) : Quat :=
  ⟨p.w * q.w - p.x * q.x - p.y * q.y - p.z * q.z,
   p.w * q.x + p.x * q.w + p.y * q.z - p.z * q.y,
   p.w * q.y - p.x * q.z + p.y * q.w + p.z * q.x,
   p.w * q.z + p.x * q.y - p.y * q.x + p.z * q.w⟩

/-- Squared norm of a quaternion. -/
def normSq (q : Quat) : ℝ := q.w ^ 2 + q.x ^ 2 + q.y ^ 2 + q.z ^ 2

/-- The glm quaternion-vector product `q * v`:
`uv := cross (q.xyz) v; uuv := cross (q.xyz) uv; v + ((uv * q.w) + uuv) * 2`.
For a unit quaternion this is rotation by the encoded angle about the encoded
axis. -/
def rotateVec (q : Quat) (v : Vec3) : Vec3 :=
  let u : Vec3 := ⟨q.x, q.y, q.z⟩
  let uv := Vec3.cross u v
  let uuv := Vec3.cross u uv
  Vec3.add v (Vec3.smul 2 (Vec3.add (Vec3.smul q.w uv) uuv))

end Quat

/-! Constants from the anonymous namespace of `renderer.cpp`. -/

/-- Skybox size (`_skyboxSize = 5.f`). -/
def skyboxSize : ℝ := 5

/-- Linear scaling factor for the rotational interaction
(`_rotationalFactor = 60.f`). -/
def rotationalFactor : ℝ := 60

/-- Minimum height for the camera (`_minimumHeight = 0.1f`). -/
def minimumHeight : ℝ := 1 / 10

/-- Minimum camera distance from the focus (`_minimumDistance = 0.25f`). -/
def minimumDistance : ℝ := 1 / 4

/-- Maximum camera distance from the focus
(`_maximumDistance = _skyboxSize - 0.1f`). -/
def maximumDistance : ℝ := skyboxSize - 1 / 10

/-- The minimum allowed tilt (`_minimumTilt = 0.1f`). -/
def minimumTilt : ℝ := 1 / 10

/-- The maximum allowed tilt (`_maximumTilt = pi - _minimumTilt`). -/
def maximumTilt : ℝ := Real.pi - minimumTilt

/-- Default camera position (`_defaultPosition = vec3(-1, 0, 1)`). -/
def defaultPosition : Vec3 := ⟨-1, 0, 1⟩

/-- Default camera focus (`_defaultFocus = vec3(0)`). -/
def defaultFocus : Vec3 := ⟨0, 0, 0⟩

/-- Default camera up vector (`_defaultUp = vec3(0, 0, 1)`). -/
def defaultUp : Vec3 := ⟨0, 0, 1⟩

/-- Field of view (`_fieldOfView = 45.f`), passed to `glm::perspectiveFov`
exactly as the source does. -/
def fieldOfView : ℝ := 45

/-- Near plane distance (`_nearPlane = 0.1f`). -/
def nearPlane : ℝ := 1 / 10

/-- Far plane distance (`_farPlane = 500.f`). -/
def farPlane : ℝ := 500

/-- A 4x4 real matrix, mirroring `glm::mat4`. -/
@[reducible]
def Mat4 : Type := Matrix (Fin 4) (Fin 4) ℝ

/-- `glm::lookAt` (right-handed): rows built from the camera frame
`f = normalize (center - eye)`, `s = normalize (cross f up)`,
`u = cross s f`. -/
def lookAtMatrix (eye center up : Vec3) : Mat4 :=
  let f := Vec3.normalize (Vec3.sub center eye)
  let s := Vec3.normalize (Vec3.cross f up)
  let u := Vec3.cross s f
  !![s.x, s.y, s.z, -(Vec3.dot s eye);
     u.x, u.y, u.z, -(Vec3.dot u eye);
     -f.x, -f.y, -f.z, Vec3.dot f eye;
     0, 0, 0, 1]

/-- `glm::perspectiveFov fov width height near far` (right-handed): with
`h = cos (fov/2) / sin (fov/2)` and `w = h * height / width`. -/
def perspectiveFovMatrix (fov width height near far : ℝ) : Mat4 :=
  let h := Real.cos (fov / 2) / Real.sin (fov / 2)
  let w := h * height / width
  !![w, 0, 0, 0;
     0, h, 0, 0;
     0, 0, -(far + near) / (far - near), -(2 * far * near) / (far - near);
     0, 0, -1, 0]

/-- The camera-related mutable state of the `Renderer` class: pose
(`_position`, `_focus`, `_upVector`), the stored previous mouse position,
the `_limitCameraPosition` flag, the canvas size reported by `size()`, and
the cached `_viewProjectionMatrix`. -/
structure CamState where
  position : Vec3
  focus : Vec3
  upVector : Vec3
  oldMousePosition : Vec2
  limitCameraPosition : Bool
  canvasWidth : ℕ
  canvasHeight : ℕ
  viewProjectionMatrix : Mat4

open Classical in
/-- `Renderer::updateViewProjectionMatrix`: recomputes the cached
`projection * view` matrix from the current pose and canvas size. -/
def updateViewProjectionMatrix (s : CamState) : CamState :=
  let viewMatrix := lookAtMatrix s.position s.focus s.upVector
  let projectionMatrix :=
    perspectiveFovMatrix fieldOfView (s.canvasWidth : ℝ) (s.canvasHeight : ℝ)
      nearPlane farPlane
  { s with viewProjectionMatrix := projectionMatrix * viewMatrix }

/-- `Renderer::scaledMouse`: maps a window-coordinate mouse position to the
vector the drag handlers consume. Translated literally from the source:
the x component is `x*2 / width - 1`, the y component is
`y*2 / (height - 1)` (the `- 1.f` sits inside the cast of the denominator). -/
def scaledMouse (s : CamState) (mouseX mouseY : ℤ) : Vec2 :=
  ⟨(mouseX : ℝ) * 2 / (s.canvasWidth : ℝ) - 1,
   (mouseY : ℝ) * 2 / ((s.canvasHeight : ℝ) - 1)⟩

/-- The clamped, scaled mouse displacement of `Renderer::rotate`:
`t = (oldPos - newPos) * _rotationalFactor`, clamped component-wise to
`[-1, 1]`, then `phi = 2 * asin t` component-wise. -/
def rotatePhi (s : CamState) (newMouse : Vec2) : Vec2 :=
  let t0 := Vec2.smul rotationalFactor (Vec2.sub s.oldMousePosition newMouse)
  let t1 := Vec2.vmin t0 ⟨1, 1⟩
  let t := Vec2.vmax t1 ⟨-1, -1⟩
  ⟨2 * Real.arcsin t.x, 2 * Real.arcsin t.y⟩

/-- The current tilt angle computed by `Renderer::rotate`:
`acos (dot (normalize _upVector) (normalize _position))`. -/
def currentTiltAngle (s : CamState) : ℝ :=
  Real.arccos (Vec3.dot (Vec3.normalize s.upVector) (Vec3.normalize s.position))

open Classical in
/-- `Renderer::rotate`: orbit interaction. Early-returns when the mouse has
not moved; early-returns when the pole-avoidance guard fires (current tilt
already above `_maximumTilt` with a positive tilt step — `closeToBottom` —
or already below `_minimumTilt` with a negative tilt step — `closeToTop`);
otherwise applies tilt and yaw, clamps the height when
`_limitCameraPosition` is set, and refreshes the view-projection matrix.
The source constructs the (pure, side-effect-free) yaw quaternion before
evaluating the guard; it is moved after the guard here, which does not
change the function's result. -/
def rotate (s : CamState) (newMouse : Vec2) : CamState :=
  if newMouse = s.oldMousePosition then s
  else if (currentTiltAngle s > maximumTilt ∧ (rotatePhi s newMouse).y > 0) ∨
      (currentTiltAngle s < minimumTilt ∧ (rotatePhi s newMouse).y < 0) then s
  else
    let rotationQuat := Quat.angleAxis (rotatePhi s newMouse).x s.upVector
    let tiltQuat := Quat.angleAxis (rotatePhi s newMouse).y
      (Vec3.normalize (Vec3.cross s.upVector s.position))
    let rotated := Quat.rotateVec (Quat.mul tiltQuat rotationQuat) s.position
    let newPosition :=
      if s.limitCameraPosition then
        { rotated with z := max rotated.z minimumHeight }
      else rotated
    updateViewProjectionMatrix { s with position := newPosition }

/-- The position `Renderer::zoom` computes before any limiting:
`(1 + t) * (_position - _focus)` with `t = newMouse.y - oldMouse.y`. -/
def zoomScaled (s : CamState) (newMouse : Vec2) : Vec3 :=
  Vec3.smul (1 + (newMouse.y - s.oldMousePosition.y))
    (Vec3.sub s.position s.focus)

open Classical in
/-- The distance-limiting part of `Renderer::zoom`: if the displaced position
is farther than `_maximumDistance` it is pulled back to that distance along
`normalize (_position - _focus)`; if the (possibly pulled back) position is
closer than `_minimumDistance` it is pushed out to that distance. -/
def zoomDistClamped (s : CamState) (newMouse : Vec2) : Vec3 :=
  let positionVector := Vec3.sub s.position s.focus
  let p0 := zoomScaled s newMouse
  let pa :=
    if Vec3.norm p0 > maximumDistance then
      Vec3.smul maximumDistance (Vec3.normalize positionVector)
    else p0
  if Vec3.norm pa < minimumDistance then
    Vec3.smul minimumDistance (Vec3.normalize positionVector)
  else pa

open Classical in
/-- `Renderer::zoom`: zoom interaction. Early-returns when the mouse has not
moved; otherwise displaces the position along the focus-to-position vector,
applies the distance clamps and then the minimum-height clamp when
`_limitCameraPosition` is set, and refreshes the view-projection matrix. -/
def zoom (s : CamState) (newMouse : Vec2) : CamState :=
  if newMouse = s.oldMousePosition then s
  else
    let newPosition :=
      if s.limitCameraPosition then
        let pb := zoomDistClamped s newMouse
        { pb with z := max pb.z minimumHeight }
      else zoomScaled s newMouse
    updateViewProjectionMatrix { s with position := newPosition }

/-- The camera part of `Renderer::initializeGL`: installs the default pose
and light-independent camera state, then recomputes the view-projection
matrix. -/
def initializeGLCamera (s : CamState) : CamState :=
  updateViewProjectionMatrix
    { s with position := defaultPosition, focus := defaultFocus,
             upVector := defaultUp }

/-- The GPU-resource-related mutable state of the `Renderer` class. `GLuint`
handles are natural numbers (`0` is the null name); pointer-valued handles
(`Texture*`, `ProgramObject*`) are modelled by their non-nullness as a
`Bool`. `nextName` is the monotone counter backing `glGenBuffers` and
`glGenTextures`; it starts at `1`, so every generated name is nonzero. -/
structure ResState where
  renderGround : Bool
  groundVBO : ℕ
  groundTexture : Bool
  groundTextureNormal : Bool
  groundProgram : Bool
  groundProgramReady : Bool
  renderSkybox : Bool
  skyboxVBO : ℕ
  skyboxIBO : ℕ
  skyboxTexture : ℕ
  skyboxProgram : Bool
  skyboxProgramReady : Bool
  particleVBO : ℕ
  particleTexture : Bool
  particleProgram : Bool
  particleProgramReady : Bool
  particleData : Option (List Vec3)
  numberOfParticles : ℕ
  nextName : ℕ

/-- The `ResState` corresponding to the member initialiser list of the
`Renderer` constructor: every handle null, both render toggles on, no
particle source, zero particles. -/
def initialResState : ResState where
  renderGround := true
  groundVBO := 0
  groundTexture := false
  groundTextureNormal := false
  groundProgram := false
  groundProgramReady := false
  renderSkybox := true
  skyboxVBO := 0
  skyboxIBO := 0
  skyboxTexture := 0
  skyboxProgram := false
  skyboxProgramReady := false
  particleVBO := 0
  particleTexture := false
  particleProgram := false
  particleProgramReady := false
  particleData := none
  numberOfParticles := 0
  nextName := 1

/-- Allocation of a fresh GL object name (`glGenBuffers` / `glGenTextures`):
returns the next unused name and bumps the counter. -/
def genName (s : ResState) : ℕ × ResState :=
  (s.nextName, { s with nextName := s.nextName + 1 })

/-- The outcomes of the external asset loads and shader builds performed
during initialization: whether each `loadTexture` call returned a non-null
texture, and whether each program compiled and linked. -/
structure LoadEnv where
  groundTexOk : Bool
  groundTexNormalOk : Bool
  groundCompileOk : Bool
  groundLinkOk : Bool
  skyboxCompileOk : Bool
  skyboxLinkOk : Bool
  particleTexOk : Bool
  particleCompileOk : Bool
  particleLinkOk : Bool

/-- `Renderer::generateGroundBuffer`: creates the ground VBO if it does not
exist yet (the static quad upload has no observable effect on this state). -/
def generateGroundBuffer (s : ResState) : ResState :=
  if s.groundVBO = 0 then
    let (name, s1) := genName s
    { s1 with groundVBO := name }
  else s

/-- `Renderer::initializeGround`: generates the ground VBO, loads the two
ground textures (a failed load leaves the handle null), creates the ground
program, and records `_groundProgramReady` as the link result only when
compilation succeeded. -/
def initializeGround (env : LoadEnv) (s : ResState) : ResState :=
  let s1 := generateGroundBuffer s
  let s2 := { s1 with groundTexture := env.groundTexOk }
  let s3 := { s2 with groundTextureNormal := env.groundTexNormalOk }
  let s4 := { s3 with groundProgram := true }
  if env.groundCompileOk then { s4 with groundProgramReady := env.groundLinkOk }
  else s4

/-- `Renderer::generateSkyboxBuffer`: creates the skybox VBO and IBO if they
do not exist yet. -/
def generateSkyboxBuffer (s : ResState) : ResState :=
  let s1 :=
    if s.skyboxVBO = 0 then
      let (name, t) := genName s
      { t with skyboxVBO := name }
    else s
  if s1.skyboxIBO = 0 then
    let (name, t) := genName s1
    { t with skyboxIBO := name }
  else s1

/-- `Renderer::initializeSkybox`: generates the skybox buffers, creates the
skybox program (readiness recorded as for the ground), and generates the
cube-map texture name with `glGenTextures` — note the name is created
before the six face textures are loaded, so it is nonzero even when a face
load fails and the function returns early (the face uploads themselves have
no observable effect on this state). -/
def initializeSkybox (env : LoadEnv) (s : ResState) : ResState :=
  let s1 := generateSkyboxBuffer s
  let s2 := { s1 with skyboxProgram := true }
  let s3 :=
    if env.skyboxCompileOk then { s2 with skyboxProgramReady := env.skyboxLinkOk }
    else s2
  let (name, s4) := genName s3
  { s4 with skyboxTexture := name }

/-- `Renderer::initializeParticle`: loads the particle texture (a failed
load leaves the handle null) and creates the particle program, recording
readiness as for the ground. No particle VBO is created here — it is
created lazily by `updateData`. -/
def initializeParticle (env : LoadEnv) (s : ResState) : ResState :=
  let s1 := { s with particleTexture := env.particleTexOk }
  let s2 := { s1 with particleProgram := true }
  if env.particleCompileOk then { s2 with particleProgramReady := env.particleLinkOk }
  else s2

/-- The resource part of `Renderer::initializeGL`: initializes the ground,
skybox and particle subsystems, in that order. -/
def initializeGLResources (env : LoadEnv) (s : ResState) : ResState :=
  initializeParticle env (initializeSkybox env (initializeGround env s))

/-- `Renderer::groundIsReady`: the ground VBO exists, the ground program is
non-null and compiled and linked, and both ground textures loaded. -/
def groundIsReady (s : ResState) : Bool :=
  s.groundVBO != 0 && s.groundProgram && s.groundProgramReady &&
    s.groundTexture && s.groundTextureNormal

/-- `Renderer::skyboxIsReady`: the skybox VBO and IBO exist, the skybox
program is non-null and compiled and linked, and the cube-map texture name
is nonzero. -/
def skyboxIsReady (s : ResState) : Bool :=
  s.skyboxVBO != 0 && s.skyboxIBO != 0 && s.skyboxProgram &&
    s.skyboxProgramReady && s.skyboxTexture != 0

/-- `Renderer::particlesAreReady`: the particle VBO exists and the particle
program is non-null and compiled and linked. The particle texture is not
consulted. -/
def particlesAreReady (s : ResState) : Bool :=
  s.particleVBO != 0 && s.particleProgram && s.particleProgramReady

/-- `Renderer::setData`: stores the non-owning reference to the external
particle position sequence; triggers no GPU work. -/
def setData (s : ResState) (particleData : Option (List Vec3)) : ResState :=
  { s with particleData := particleData }

/-- The OpenGL calls `Renderer::updateData` can issue. -/
inductive GLCall where
  | genBuffersCall : GLCall
  | enableVertexAttribArrayCall : GLCall
  | bindBufferCall (name : ℕ) : GLCall
  | bufferDataCall (data : List Vec3) : GLCall
  | vertexAttribPointerCall : GLCall

/-- `Renderer::updateData`: when the particle source is absent or empty the
cached count is set to zero and the function returns without touching the
GPU; otherwise the particle VBO is created if absent, the full source
contents are uploaded with `glBufferData`, and the cached count is set to
the source length. The second component records the GL calls issued. -/
def updateData (s : ResState) : ResState × List GLCall :=
  match s.particleData with
  | none => ({ s with numberOfParticles := 0 }, [])
  | some data =>
    if data.length = 0 then ({ s with numberOfParticles := 0 }, [])
    else
      let (vbo, s1) :=
        if s.particleVBO = 0 then
          let (name, t) := genName s
          (name, { t with particleVBO := name })
        else (s.particleVBO, s)
      ({ s1 with numberOfParticles := data.length },
       if s.particleVBO = 0 then
         [GLCall.genBuffersCall, GLCall.enableVertexAttribArrayCall,
          GLCall.bindBufferCall vbo, GLCall.bufferDataCall data,
          GLCall.vertexAttribPointerCall]
       else
         [GLCall.enableVertexAttribArrayCall, GLCall.bindBufferCall vbo,
          GLCall.bufferDataCall data, GLCall.vertexAttribPointerCall])

/-- The draw events issued by `Renderer::paintGL`. -/
inductive DrawCmd where
  | clearCmd : DrawCmd
  | groundCmd : DrawCmd
  | skyboxCmd : DrawCmd
  | particlesCmd : DrawCmd
deriving DecidableEq

/-- `Renderer::paintGL`: clears the frame buffer, then draws the ground when
its toggle is on and it is ready, then the skybox when its toggle is on and
it is ready, then the particles when they are ready (no user toggle). -/
def paintGL (s : ResState) : List DrawCmd :=
  DrawCmd.clearCmd ::
    ((if s.renderGround && groundIsReady s then [DrawCmd.groundCmd] else []) ++
     (if s.renderSkybox && skyboxIsReady s then [DrawCmd.skyboxCmd] else []) ++
     (if particlesAreReady s then [DrawCmd.particlesCmd] else []))

/-- Constructor for concrete camera states used in scenario theorems: the
canvas is the fixed 800x600 renderer surface of the application and the
cached matrix starts as the identity. -/
def mkCamState (pos focus up : Vec3) (oldMouse : Vec2) (limit : Bool) :
    CamState where
  position := pos
  focus := focus
  upVector := up
  oldMousePosition := oldMouse
  limitCameraPosition := limit
  canvasWidth := 800
  canvasHeight := 600
  viewProjectionMatrix := 1

/-- Modelled from the claim's words, for comparison with
`particlesAreReady`: particle readiness as the claim states it — a non-zero
vertex buffer, a non-null compiled-and-linked program, and a successfully
loaded particle texture. -/
def particlesAreReadySpec (s : ResState) : Bool :=
  s.particleVBO != 0 && s.particleProgram && s.particleProgramReady &&
    s.particleTexture

/-! Helper lemmas about the embedded vector and quaternion algebra. -/

theorem Vec3.normSq_nonneg (a : Vec3) : 0 ≤ Vec3.normSq a := by
  unfold Vec3.normSq; positivity

theorem Vec3.normSq_eq_zero_iff (a : Vec3) :
    Vec3.normSq a = 0 ↔ a = ⟨0, 0, 0⟩ := by
  obtain ⟨x, y, z⟩ := a
  simp only [Vec3.normSq, Vec3.mk.injEq]
  constructor
  · intro h
    refine ⟨?_, ?_, ?_⟩ <;> nlinarith [sq_nonneg x, sq_nonneg y, sq_nonneg z]
  · rintro ⟨rfl, rfl, rfl⟩; ring

theorem Vec3.normSq_pos (a : Vec3) (h : a ≠ ⟨0, 0, 0⟩) : 0 < Vec3.normSq a := by
  rcases lt_or_eq_of_le (Vec3.normSq_nonneg a) with hlt | heq
  · exact hlt
  · exact absurd ((Vec3.normSq_eq_zero_iff a).mp heq.symm) h

theorem Vec3.norm_nonneg (a : Vec3) : 0 ≤ Vec3.norm a := Real.sqrt_nonneg _

theorem Vec3.norm_pos (a : Vec3) (h : a ≠ ⟨0, 0, 0⟩) : 0 < Vec3.norm a :=
  Real.sqrt_pos.mpr (Vec3.normSq_pos a h)

theorem Vec3.norm_eq_zero_iff (a : Vec3) : Vec3.norm a = 0 ↔ a = ⟨0, 0, 0⟩ := by
  rw [Vec3.norm, Real.sqrt_eq_zero (Vec3.normSq_nonneg a), Vec3.normSq_eq_zero_iff]

theorem Vec3.sq_norm (a : Vec3) : Vec3.norm a ^ 2 = Vec3.normSq a :=
  Real.sq_sqrt (Vec3.normSq_nonneg a)

theorem Vec3.normSq_smul (c : ℝ) (a : Vec3) :
    Vec3.normSq (Vec3.smul c a) = c ^ 2 * Vec3.normSq a := by
  simp only [Vec3.normSq, Vec3.smul]; ring

theorem Vec3.norm_smul (c : ℝ) (a : Vec3) :
    Vec3.norm (Vec3.smul c a) = |c| * Vec3.norm a := by
  rw [Vec3.norm, Vec3.normSq_smul, Real.sqrt_mul (sq_nonneg c),
    Real.sqrt_sq_eq_abs, Vec3.norm]

theorem Vec3.normSq_normalize (a : Vec3) (h : a ≠ ⟨0, 0, 0⟩) :
    Vec3.normSq (Vec3.normalize a) = 1 := by
  have hpos := Vec3.norm_pos a h
  rw [Vec3.normalize, Vec3.normSq_smul, ← Vec3.sq_norm]
  field_simp

theorem Vec3.norm_normalize (a : Vec3) (h : a ≠ ⟨0, 0, 0⟩) :
    Vec3.norm (Vec3.normalize a) = 1 := by
  rw [Vec3.norm, Vec3.normSq_normalize a h, Real.sqrt_one]

theorem Vec3.norm_of_sq (a : Vec3) (c : ℝ) (hc : 0 ≤ c)
    (h : Vec3.normSq a = c ^ 2) : Vec3.norm a = c := by
  rw [Vec3.norm, h, Real.sqrt_sq hc]

theorem Quat.normSq_mul (p q : Quat) :
    Quat.normSq (Quat.mul p q) = Quat.normSq p * Quat.normSq q := by
  obtain ⟨pw, px, py, pz⟩ := p
  obtain ⟨qw, qx, qy, qz⟩ := q
  simp only [Quat.normSq, Quat.mul]
  ring

theorem Quat.normSq_angleAxis (angle : ℝ) (axis : Vec3)
    (h : Vec3.normSq axis = 1) : Quat.normSq (Quat.angleAxis angle axis) = 1 := by
  obtain ⟨ax, ay, az⟩ := axis
  simp only [Quat.normSq, Quat.angleAxis]
  simp only [Vec3.normSq] at h
  linear_combination Real.sin (angle / 2) ^ 2 * h +
    Real.sin_sq_add_cos_sq (angle / 2)

theorem Quat.rotateVec_normSq (q : Quat) (v : Vec3) (h : Quat.normSq q = 1) :
    Vec3.normSq (Quat.rotateVec q v) = Vec3.normSq v := by
  obtain ⟨w, ux, uy, uz⟩ := q
  obtain ⟨vx, vy, vz⟩ := v
  simp only [Quat.normSq] at h
  simp only [Quat.rotateVec, Vec3.cross, Vec3.add, Vec3.smul, Vec3.normSq]
  linear_combination
    (4 * ((ux ^ 2 + uy ^ 2 + uz ^ 2) * (vx ^ 2 + vy ^ 2 + vz ^ 2) -
      (ux * vx + uy * vy + uz * vz) ^ 2)) * h

theorem Quat.rotateVec_norm (q : Quat) (v : Vec3) (h : Quat.normSq q = 1) :
    Vec3.norm (Quat.rotateVec q v) = Vec3.norm v := by
  rw [Vec3.norm, Quat.rotateVec_normSq q v h, Vec3.norm]

/-! Theorems for the claims. -/

/-- Claim C2, counterexample: a resource state in which every particle
resource except the particle texture succeeded — `particlesAreReady`
nevertheless returns `true`, while the predicate described by the claim
(which requires the particle texture) returns `false`. -/
theorem C2_counterexample :
    particlesAreReady { initialResState with
        particleVBO := 1, particleProgram := true,
        particleProgramReady := true, particleTexture := false } = true ∧
    particlesAreReadySpec { initialResState with
        particleVBO := 1, particleProgram := true,
        particleProgramReady := true, particleTexture := false } = false := by
  exact ⟨rfl, rfl⟩

/-- Claim C2, amended: after initialization with load outcomes `env`, the
ground is ready iff both its textures loaded and its program compiled and
linked; the skybox is ready iff its program compiled and linked (its
buffers and cube-map name are always created); the particles are not ready
until `updateData` first runs with data, after which their readiness equals
exactly the program compile-and-link outcome — a failed particle-texture
load does not make `particlesAreReady` false. -/
theorem C2_amended (env : LoadEnv) :
    groundIsReady (initializeGLResources env initialResState) =
      (env.groundTexOk && env.groundTexNormalOk &&
        env.groundCompileOk && env.groundLinkOk) ∧
    skyboxIsReady (initializeGLResources env initialResState) =
      (env.skyboxCompileOk && env.skyboxLinkOk) ∧
    particlesAreReady (initializeGLResources env initialResState) = false ∧
    particlesAreReady
        (updateData (setData (initializeGLResources env initialResState)
          (some [⟨0, 0, 0⟩]))).1 =
      (env.particleCompileOk && env.particleLinkOk) := by
  obtain ⟨gt, gtn, gc, gl, sc, sl, pt, pc, pl⟩ := env
  cases gc <;> cases sc <;> cases pc <;>
    simp [initializeGLResources, initializeGround, initializeSkybox,
      initializeParticle, generateGroundBuffer, generateSkyboxBuffer, genName,
      initialResState, groundIsReady, skyboxIsReady, particlesAreReady,
      setData, updateData, Bool.and_comm, Bool.and_left_comm, Bool.and_assoc]

/-- Claim C4: for mouse positions inside the 800x600 viewport the scaling
function is claimed to land in `[-1, 1]` on both components; evaluating the
source formula at the in-viewport input `(0, 600)` yields a y component of
`1200 / 599 > 1`, because the code divides by `height - 1` instead of
dividing by `height` and subtracting `1`. -/
theorem C4_failing_eval :
    scaledMouse (mkCamState defaultPosition defaultFocus defaultUp ⟨0, 0⟩ true)
        0 600 =
      ⟨-1, 1200 / 599⟩ ∧
    (1 : ℝ) < 1200 / 599 := by
  constructor
  · simp only [scaledMouse, mkCamState]
    norm_num
  · norm_num

/-- Claim C5: a resync with an absent or empty particle source sets the
cached count to zero, issues no GL call, and leaves the particle VBO
handle unchanged; with a non-empty source it issues the full-contents
`glBufferData` upload and sets the cached count to the source length. -/
theorem C5_updateData (s : ResState) :
    ((s.particleData = none ∨ s.particleData = some []) →
      (updateData s).1.numberOfParticles = 0 ∧ (updateData s).2 = [] ∧
      (updateData s).1.particleVBO = s.particleVBO) ∧
    (∀ data : List Vec3, s.particleData = some data → data ≠ [] →
      GLCall.bufferDataCall data ∈ (updateData s).2 ∧
      (updateData s).1.numberOfParticles = data.length) := by
  constructor
  · rintro (h | h) <;> simp [updateData, h]
  · intro data h hne
    have hlen : ¬data.length = 0 := by simpa using hne
    by_cases hv : s.particleVBO = 0 <;>
      simp [updateData, h, hlen, hv, genName]

/-- Witness for C5 at the freshly constructed renderer state, whose particle
source is absent. -/
theorem C5_witness :
    (updateData initialResState).1.numberOfParticles = 0 ∧
    (updateData initialResState).2 = [] ∧
    (updateData initialResState).1.particleVBO = initialResState.particleVBO :=
  (C5_updateData initialResState).1 (Or.inl rfl)

/-- Claim C6: one `paintGL` call issues its draw events as a subsequence of
the fixed order clear, ground, skybox, particles; the ground event appears
exactly when its toggle is on and the ground subsystem is ready, the skybox
event exactly when its toggle is on and the skybox subsystem is ready, and
the particles event exactly when the particle subsystem is ready, with no
toggle involved. -/
theorem C6_drawOrder (s : ResState) :
    List.Sublist (paintGL s)
      [DrawCmd.clearCmd, DrawCmd.groundCmd, DrawCmd.skyboxCmd,
        DrawCmd.particlesCmd] ∧
    (DrawCmd.groundCmd ∈ paintGL s ↔
      s.renderGround = true ∧ groundIsReady s = true) ∧
    (DrawCmd.skyboxCmd ∈ paintGL s ↔
      s.renderSkybox = true ∧ skyboxIsReady s = true) ∧
    (DrawCmd.particlesCmd ∈ paintGL s ↔ particlesAreReady s = true) := by
  unfold paintGL
  simp only [← Bool.and_eq_true]
  cases s.renderGround && groundIsReady s <;>
    cases s.renderSkybox && skyboxIsReady s <;>
      cases particlesAreReady s <;> decide

/-- Claim C7: an orbit or zoom update whose new pointer position equals the
stored previous pointer position leaves the whole camera state — pose and
cached view-projection matrix included — unchanged. -/
theorem C7_noop (s : CamState) (newMouse : Vec2)
    (h : newMouse = s.oldMousePosition) :
    rotate s newMouse = s ∧ zoom s newMouse = s := by
  constructor
  · rw [rotate, if_pos h]
  · rw [zoom, if_pos h]

/-- Witness for C7 at a concrete camera state and its own stored mouse
position. -/
theorem C7_witness :
    rotate (mkCamState defaultPosition defaultFocus defaultUp ⟨0, 0⟩ true)
        ⟨0, 0⟩ =
      mkCamState defaultPosition defaultFocus defaultUp ⟨0, 0⟩ true ∧
    zoom (mkCamState defaultPosition defaultFocus defaultUp ⟨0, 0⟩ true)
        ⟨0, 0⟩ =
      mkCamState defaultPosition defaultFocus defaultUp ⟨0, 0⟩ true :=
  C7_noop (mkCamState defaultPosition defaultFocus defaultUp ⟨0, 0⟩ true)
    ⟨0, 0⟩ rfl

@[simp]
theorem updateViewProjectionMatrix_position (s : CamState) :
    (updateViewProjectionMatrix s).position = s.position := rfl

@[simp]
theorem updateViewProjectionMatrix_focus (s : CamState) :
    (updateViewProjectionMatrix s).focus = s.focus := rfl

@[simp]
theorem updateViewProjectionMatrix_upVector (s : CamState) :
    (updateViewProjectionMatrix s).upVector = s.upVector := rfl

theorem Vec3.sub_zero_vec (a : Vec3) : Vec3.sub a ⟨0, 0, 0⟩ = a := by
  simp [Vec3.sub]

theorem Vec3.smul_one (a : Vec3) : Vec3.smul 1 a = a := by
  simp [Vec3.smul]

theorem rotate_upVector (s : CamState) (newMouse : Vec2) :
    (rotate s newMouse).upVector = s.upVector := by
  rw [rotate]
  split
  · rfl
  split
  · rfl
  · rfl

theorem rotate_focus (s : CamState) (newMouse : Vec2) :
    (rotate s newMouse).focus = s.focus := by
  rw [rotate]
  split
  · rfl
  split
  · rfl
  · rfl

theorem zoom_upVector (s : CamState) (newMouse : Vec2) :
    (zoom s newMouse).upVector = s.upVector := by
  rw [zoom]
  split
  · rfl
  · rfl

theorem zoom_focus (s : CamState) (newMouse : Vec2) :
    (zoom s newMouse).focus = s.focus := by
  rw [zoom]
  split
  · rfl
  · rfl

/-- Claim C8: with the limit disabled and the focus at the origin (where
the source pins it), a zoom drag scales the position by exactly
`1 + t` with `t = newMouse.y - oldMouse.y`; in particular a drag with
`t = 1/10` multiplies the distance from the focus by exactly `11/10`. -/
theorem C8_zoomFormula (s : CamState) (newMouse : Vec2)
    (hlim : s.limitCameraPosition = false)
    (hfocus : s.focus = ⟨0, 0, 0⟩) :
    (zoom s newMouse).position =
      Vec3.smul (1 + (newMouse.y - s.oldMousePosition.y)) s.position ∧
    (newMouse.y - s.oldMousePosition.y = 1 / 10 →
      Vec3.norm ((zoom s newMouse).position) =
        11 / 10 * Vec3.norm s.position) := by
  have hmain : (zoom s newMouse).position =
      Vec3.smul (1 + (newMouse.y - s.oldMousePosition.y)) s.position := by
    by_cases hm : newMouse = s.oldMousePosition
    · rw [zoom, if_pos hm, hm, sub_self, add_zero, Vec3.smul_one]
    · rw [zoom, if_neg hm]
      simp only [updateViewProjectionMatrix_position, hlim]
      simp [zoomScaled, hfocus, Vec3.sub_zero_vec]
  refine ⟨hmain, fun ht => ?_⟩
  rw [hmain, ht, Vec3.norm_smul]
  norm_num

/-- Witness for C8 at a concrete pose and a drag from `(0, 1/2)` to
`(0, 3/5)`, i.e. `t = 1/10`. -/
theorem C8_witness :
    (zoom (mkCamState defaultPosition defaultFocus defaultUp ⟨0, 1 / 2⟩ false)
        ⟨0, 3 / 5⟩).position =
      Vec3.smul (1 + ((3 : ℝ) / 5 - 1 / 2)) defaultPosition ∧
    Vec3.norm ((zoom
        (mkCamState defaultPosition defaultFocus defaultUp ⟨0, 1 / 2⟩ false)
        ⟨0, 3 / 5⟩).position) =
      11 / 10 * Vec3.norm defaultPosition := by
  have h := C8_zoomFormula
    (mkCamState defaultPosition defaultFocus defaultUp ⟨0, 1 / 2⟩ false)
    ⟨0, 3 / 5⟩ rfl rfl
  exact ⟨h.1, h.2 (by show (3 : ℝ) / 5 - 1 / 2 = 1 / 10; norm_num)⟩

/-- Claim C1, amended: the pole-avoidance guard aborts the entire orbit
update (neither yaw nor tilt is applied, the state is returned unchanged)
whenever the current tilt is already above `maximumTilt` and the tilt step
is positive, or already below `minimumTilt` and the tilt step is negative;
it does not test whether the update would move a tilt that starts inside
`[minimumTilt, maximumTilt]` out of that range. -/
theorem C1_amended (s : CamState) (newMouse : Vec2)
    (h : (currentTiltAngle s > maximumTilt ∧ (rotatePhi s newMouse).y > 0) ∨
      (currentTiltAngle s < minimumTilt ∧ (rotatePhi s newMouse).y < 0)) :
    rotate s newMouse = s := by
  by_cases hm : newMouse = s.oldMousePosition
  · rw [rotate, if_pos hm]
  · rw [rotate, if_neg hm, if_pos h]

theorem Quat.angleAxis_zero (axis : Vec3) :
    Quat.angleAxis 0 axis = ⟨1, 0, 0, 0⟩ := by
  simp [Quat.angleAxis]

theorem Quat.mul_id_left (q : Quat) : Quat.mul ⟨1, 0, 0, 0⟩ q = q := by
  obtain ⟨w, x, y, z⟩ := q
  simp [Quat.mul]

theorem Quat.mul_id_right (q : Quat) : Quat.mul q ⟨1, 0, 0, 0⟩ = q := by
  obtain ⟨w, x, y, z⟩ := q
  simp [Quat.mul]

/-- Claim C9: from the default pose, an orbit drag from `(0, 0)` to
`(0.1, 0)` applies to the position exactly the rotation by the angle `π`
about the up axis (the code's clamped displacement saturates at
`|phi| = π`), the tilt component of the step is zero, and the length of
the position vector is unchanged. -/
theorem C9_scenario :
    (rotate (mkCamState defaultPosition defaultFocus defaultUp ⟨0, 0⟩ true)
        ⟨1 / 10, 0⟩).position =
      Quat.rotateVec (Quat.angleAxis Real.pi defaultUp) defaultPosition ∧
    (rotatePhi (mkCamState defaultPosition defaultFocus defaultUp ⟨0, 0⟩ true)
        ⟨1 / 10, 0⟩).y = 0 ∧
    Vec3.norm ((rotate (mkCamState defaultPosition defaultFocus defaultUp
        ⟨0, 0⟩ true) ⟨1 / 10, 0⟩).position) =
      Vec3.norm defaultPosition := by
  have hphi : rotatePhi
      (mkCamState defaultPosition defaultFocus defaultUp ⟨0, 0⟩ true)
      ⟨1 / 10, 0⟩ = ⟨-Real.pi, 0⟩ := by
    rw [rotatePhi]
    have hc : Vec2.vmax (Vec2.vmin (Vec2.smul rotationalFactor
        (Vec2.sub (mkCamState defaultPosition defaultFocus defaultUp
          ⟨0, 0⟩ true).oldMousePosition ⟨1 / 10, 0⟩)) ⟨1, 1⟩)
        ⟨-1, -1⟩ = ⟨-1, 0⟩ := by
      show Vec2.vmax (Vec2.vmin (Vec2.smul 60 (Vec2.sub ⟨0, 0⟩ ⟨1 / 10, 0⟩))
        ⟨1, 1⟩) ⟨-1, -1⟩ = ⟨-1, 0⟩
      unfold Vec2.sub Vec2.smul Vec2.vmin Vec2.vmax
      norm_num [min_def, max_def]
    rw [hc]
    show (⟨2 * Real.arcsin (-1), 2 * Real.arcsin 0⟩ : Vec2) = ⟨-Real.pi, 0⟩
    rw [Real.arcsin_neg_one, Real.arcsin_zero]
    simp only [Vec2.mk.injEq]
    constructor <;> ring
  have hguard : ¬((currentTiltAngle (mkCamState defaultPosition defaultFocus
        defaultUp ⟨0, 0⟩ true) > maximumTilt ∧
      (rotatePhi (mkCamState defaultPosition defaultFocus defaultUp
        ⟨0, 0⟩ true) ⟨1 / 10, 0⟩).y > 0) ∨
      (currentTiltAngle (mkCamState defaultPosition defaultFocus defaultUp
        ⟨0, 0⟩ true) < minimumTilt ∧
      (rotatePhi (mkCamState defaultPosition defaultFocus defaultUp
        ⟨0, 0⟩ true) ⟨1 / 10, 0⟩).y < 0)) := by
    rw [hphi]
    simp
  have hrotq : Quat.angleAxis ((rotatePhi (mkCamState defaultPosition
      defaultFocus defaultUp ⟨0, 0⟩ true) ⟨1 / 10, 0⟩).x)
      (mkCamState defaultPosition defaultFocus defaultUp
        ⟨0, 0⟩ true).upVector = ⟨0, 0, 0, -1⟩ := by
    rw [hphi]
    show Quat.angleAxis (-Real.pi) ⟨0, 0, 1⟩ = ⟨0, 0, 0, -1⟩
    unfold Quat.angleAxis
    rw [show -Real.pi / 2 = -(Real.pi / 2) by ring, Real.cos_neg,
      Real.sin_neg, Real.cos_pi_div_two, Real.sin_pi_div_two]
    norm_num
  have htilt : Quat.angleAxis ((rotatePhi (mkCamState defaultPosition
      defaultFocus defaultUp ⟨0, 0⟩ true) ⟨1 / 10, 0⟩).y)
      (Vec3.normalize (Vec3.cross (mkCamState defaultPosition defaultFocus
        defaultUp ⟨0, 0⟩ true).upVector
        (mkCamState defaultPosition defaultFocus defaultUp
          ⟨0, 0⟩ true).position)) = ⟨1, 0, 0, 0⟩ := by
    rw [hphi]
    exact Quat.angleAxis_zero _
  have hrotv : Quat.rotateVec ⟨0, 0, 0, -1⟩
      ((mkCamState defaultPosition defaultFocus defaultUp
        ⟨0, 0⟩ true).position) = ⟨1, 0, 1⟩ := by
    show Quat.rotateVec ⟨0, 0, 0, -1⟩ ⟨-1, 0, 1⟩ = ⟨1, 0, 1⟩
    unfold Quat.rotateVec Vec3.cross Vec3.add Vec3.smul
    norm_num
  have hm : (⟨1 / 10, 0⟩ : Vec2) ≠ (mkCamState defaultPosition defaultFocus
      defaultUp ⟨0, 0⟩ true).oldMousePosition := by
    show (⟨1 / 10, 0⟩ : Vec2) ≠ ⟨0, 0⟩
    simp only [ne_eq, Vec2.mk.injEq, not_and]
    intro h
    norm_num at h
  have hrot : (rotate (mkCamState defaultPosition defaultFocus defaultUp
      ⟨0, 0⟩ true) ⟨1 / 10, 0⟩).position = ⟨1, 0, 1⟩ := by
    rw [rotate, if_neg hm, if_neg hguard]
    simp only [updateViewProjectionMatrix_position]
    rw [hrotq, htilt, Quat.mul_id_left, hrotv]
    show (if true = true then _ else _) = _
    rw [if_pos rfl]
    show Vec3.mk 1 0 (max 1 minimumHeight) = ⟨1, 0, 1⟩
    rw [max_eq_left (by norm_num [minimumHeight])]
  refine ⟨?_, ?_, ?_⟩
  · rw [hrot]
    have h1 : Quat.angleAxis Real.pi defaultUp = ⟨0, 0, 0, 1⟩ := by
      show Quat.angleAxis Real.pi ⟨0, 0, 1⟩ = ⟨0, 0, 0, 1⟩
      unfold Quat.angleAxis
      rw [Real.cos_pi_div_two, Real.sin_pi_div_two]
      norm_num
    rw [h1]
    show (⟨1, 0, 1⟩ : Vec3) = Quat.rotateVec ⟨0, 0, 0, 1⟩ ⟨-1, 0, 1⟩
    unfold Quat.rotateVec Vec3.cross Vec3.add Vec3.smul
    norm_num
  · rw [hphi]
  · rw [hrot]
    show Vec3.norm ⟨1, 0, 1⟩ = Vec3.norm ⟨-1, 0, 1⟩
    unfold Vec3.norm Vec3.normSq
    norm_num

theorem Vec3.normalize_eq (a : Vec3) (c : ℝ) (hc : 0 < c)
    (h : Vec3.normSq a = c ^ 2) : Vec3.normalize a = Vec3.smul c⁻¹ a := by
  rw [Vec3.normalize, Vec3.norm, h, Real.sqrt_sq hc.le]

theorem Vec3.normalize_unitZ : Vec3.normalize ⟨0, 0, 1⟩ = ⟨0, 0, 1⟩ := by
  rw [Vec3.normalize_eq ⟨0, 0, 1⟩ 1 one_pos (by norm_num [Vec3.normSq])]
  norm_num [Vec3.smul]

theorem Vec3.normalize_unitX : Vec3.normalize ⟨1, 0, 0⟩ = ⟨1, 0, 0⟩ := by
  rw [Vec3.normalize_eq ⟨1, 0, 0⟩ 1 one_pos (by norm_num [Vec3.normSq])]
  norm_num [Vec3.smul]

theorem Vec3.normalize_unitY : Vec3.normalize ⟨0, 1, 0⟩ = ⟨0, 1, 0⟩ := by
  rw [Vec3.normalize_eq ⟨0, 1, 0⟩ 1 one_pos (by norm_num [Vec3.normSq])]
  norm_num [Vec3.smul]

theorem arcsin_sqrt_two_div_two :
    Real.arcsin (Real.sqrt 2 / 2) = Real.pi / 4 := by
  rw [← Real.sin_pi_div_four]
  exact Real.arcsin_sin (by linarith [Real.pi_pos]) (by linarith [Real.pi_pos])

/-- Claim C1, counterexample: from the pose `position = (1,0,0)`,
`up = (0,0,1)` — whose tilt angle is `π/2`, comfortably inside
`[minimumTilt, maximumTilt]` — a single orbit drag from `(0,0)` to
`(0, -√2/120)` with the limit enabled passes the pole-avoidance guard and
leaves the camera at tilt angle `0 < minimumTilt`: the tilt range is not
an invariant of orbit updates. -/
theorem C1_counterexample :
    minimumTilt ≤ currentTiltAngle
      (mkCamState ⟨1, 0, 0⟩ defaultFocus defaultUp ⟨0, 0⟩ true) ∧
    currentTiltAngle (mkCamState ⟨1, 0, 0⟩ defaultFocus defaultUp
      ⟨0, 0⟩ true) ≤ maximumTilt ∧
    (mkCamState ⟨1, 0, 0⟩ defaultFocus defaultUp
      ⟨0, 0⟩ true).limitCameraPosition = true ∧
    currentTiltAngle (rotate
      (mkCamState ⟨1, 0, 0⟩ defaultFocus defaultUp ⟨0, 0⟩ true)
      ⟨0, -(Real.sqrt 2 / 120)⟩) < minimumTilt := by
  have hsqrt2_pos : (0 : ℝ) < Real.sqrt 2 := Real.sqrt_pos.mpr (by norm_num)
  have hsqrt2_lt : Real.sqrt 2 < 2 := by
    rw [Real.sqrt_lt' (by norm_num : (0 : ℝ) < 2)]
    norm_num
  have hsqrt2_sq : Real.sqrt 2 * Real.sqrt 2 = 2 :=
    Real.mul_self_sqrt (by norm_num)
  have htilt0 : currentTiltAngle
      (mkCamState ⟨1, 0, 0⟩ defaultFocus defaultUp ⟨0, 0⟩ true) =
      Real.pi / 2 := by
    rw [currentTiltAngle]
    show Real.arccos (Vec3.dot (Vec3.normalize ⟨0, 0, 1⟩)
      (Vec3.normalize ⟨1, 0, 0⟩)) = Real.pi / 2
    rw [Vec3.normalize_unitZ, Vec3.normalize_unitX]
    norm_num [Vec3.dot, Real.arccos_zero]
  have hphi : rotatePhi
      (mkCamState ⟨1, 0, 0⟩ defaultFocus defaultUp ⟨0, 0⟩ true)
      ⟨0, -(Real.sqrt 2 / 120)⟩ = ⟨0, Real.pi / 2⟩ := by
    rw [rotatePhi]
    have hc : Vec2.vmax (Vec2.vmin (Vec2.smul rotationalFactor
        (Vec2.sub (mkCamState ⟨1, 0, 0⟩ defaultFocus defaultUp
          ⟨0, 0⟩ true).oldMousePosition ⟨0, -(Real.sqrt 2 / 120)⟩))
        ⟨1, 1⟩) ⟨-1, -1⟩ = ⟨0, Real.sqrt 2 / 2⟩ := by
      show Vec2.vmax (Vec2.vmin (Vec2.smul 60
        (Vec2.sub ⟨0, 0⟩ ⟨0, -(Real.sqrt 2 / 120)⟩)) ⟨1, 1⟩)
        ⟨-1, -1⟩ = ⟨0, Real.sqrt 2 / 2⟩
      unfold Vec2.sub Vec2.smul Vec2.vmin Vec2.vmax
      have e1 : (60 : ℝ) * (0 - -(Real.sqrt 2 / 120)) = Real.sqrt 2 / 2 := by
        ring
      rw [e1]
      have e2 : min (Real.sqrt 2 / 2) 1 = Real.sqrt 2 / 2 :=
        min_eq_left (by linarith)
      have e3 : max (Real.sqrt 2 / 2) (-1 : ℝ) = Real.sqrt 2 / 2 :=
        max_eq_left (by linarith)
      rw [e2, e3]
      norm_num [min_def, max_def]
    rw [hc]
    show (⟨2 * Real.arcsin 0, 2 * Real.arcsin (Real.sqrt 2 / 2)⟩ : Vec2) =
      ⟨0, Real.pi / 2⟩
    rw [Real.arcsin_zero, arcsin_sqrt_two_div_two]
    simp only [Vec2.mk.injEq]
    constructor <;> ring
  have hguard : ¬((currentTiltAngle (mkCamState ⟨1, 0, 0⟩ defaultFocus
        defaultUp ⟨0, 0⟩ true) > maximumTilt ∧
      (rotatePhi (mkCamState ⟨1, 0, 0⟩ defaultFocus defaultUp ⟨0, 0⟩ true)
        ⟨0, -(Real.sqrt 2 / 120)⟩).y > 0) ∨
      (currentTiltAngle (mkCamState ⟨1, 0, 0⟩ defaultFocus defaultUp
        ⟨0, 0⟩ true) < minimumTilt ∧
      (rotatePhi (mkCamState ⟨1, 0, 0⟩ defaultFocus defaultUp ⟨0, 0⟩ true)
        ⟨0, -(Real.sqrt 2 / 120)⟩).y < 0)) := by
    rw [htilt0, hphi]
    rintro (⟨h1, _⟩ | ⟨h1, _⟩) <;>
      · simp only [maximumTilt, minimumTilt] at h1
        linarith [Real.pi_gt_three]
  have hm : (⟨0, -(Real.sqrt 2 / 120)⟩ : Vec2) ≠
      (mkCamState ⟨1, 0, 0⟩ defaultFocus defaultUp
        ⟨0, 0⟩ true).oldMousePosition := by
    show (⟨0, -(Real.sqrt 2 / 120)⟩ : Vec2) ≠ ⟨0, 0⟩
    simp only [ne_eq, Vec2.mk.injEq, not_and]
    intro _
    intro h
    rw [neg_eq_zero, div_eq_zero_iff] at h
    rcases h with h | h
    · exact absurd h (ne_of_gt hsqrt2_pos)
    · norm_num at h
  have hrotq : Quat.angleAxis ((rotatePhi (mkCamState ⟨1, 0, 0⟩ defaultFocus
      defaultUp ⟨0, 0⟩ true) ⟨0, -(Real.sqrt 2 / 120)⟩).x)
      (mkCamState ⟨1, 0, 0⟩ defaultFocus defaultUp
        ⟨0, 0⟩ true).upVector = ⟨1, 0, 0, 0⟩ := by
    rw [hphi]
    exact Quat.angleAxis_zero _
  have htiltq : Quat.angleAxis ((rotatePhi (mkCamState ⟨1, 0, 0⟩ defaultFocus
      defaultUp ⟨0, 0⟩ true) ⟨0, -(Real.sqrt 2 / 120)⟩).y)
      (Vec3.normalize (Vec3.cross (mkCamState ⟨1, 0, 0⟩ defaultFocus
        defaultUp ⟨0, 0⟩ true).upVector
        (mkCamState ⟨1, 0, 0⟩ defaultFocus defaultUp
          ⟨0, 0⟩ true).position)) =
      ⟨Real.sqrt 2 / 2, 0, Real.sqrt 2 / 2, 0⟩ := by
    rw [hphi]
    show Quat.angleAxis (Real.pi / 2)
      (Vec3.normalize (Vec3.cross ⟨0, 0, 1⟩ ⟨1, 0, 0⟩)) =
      ⟨Real.sqrt 2 / 2, 0, Real.sqrt 2 / 2, 0⟩
    have hcross : Vec3.cross ⟨0, 0, 1⟩ ⟨1, 0, 0⟩ = ⟨0, 1, 0⟩ := by
      unfold Vec3.cross
      norm_num
    rw [hcross, Vec3.normalize_unitY]
    unfold Quat.angleAxis
    rw [show Real.pi / 2 / 2 = Real.pi / 4 by ring, Real.cos_pi_div_four,
      Real.sin_pi_div_four]
    norm_num
  have hrotv : Quat.rotateVec ⟨Real.sqrt 2 / 2, 0, Real.sqrt 2 / 2, 0⟩
      ((mkCamState ⟨1, 0, 0⟩ defaultFocus defaultUp
        ⟨0, 0⟩ true).position) = ⟨0, 0, -1⟩ := by
    show Quat.rotateVec ⟨Real.sqrt 2 / 2, 0, Real.sqrt 2 / 2, 0⟩ ⟨1, 0, 0⟩ =
      ⟨0, 0, -1⟩
    unfold Quat.rotateVec Vec3.cross Vec3.add Vec3.smul
    simp only [Vec3.mk.injEq]
    refine ⟨?_, ?_, ?_⟩
    · linear_combination (-(1 : ℝ) / 2) * hsqrt2_sq
    · ring
    · linear_combination (-(1 : ℝ) / 2) * hsqrt2_sq
  have hrot : (rotate (mkCamState ⟨1, 0, 0⟩ defaultFocus defaultUp
      ⟨0, 0⟩ true) ⟨0, -(Real.sqrt 2 / 120)⟩).position = ⟨0, 0, 1 / 10⟩ := by
    rw [rotate, if_neg hm, if_neg hguard]
    simp only [updateViewProjectionMatrix_position]
    rw [hrotq, htiltq, Quat.mul_id_right, hrotv]
    show (if true = true then _ else _) = _
    rw [if_pos rfl]
    show Vec3.mk 0 0 (max (-1) minimumHeight) = ⟨0, 0, 1 / 10⟩
    rw [minimumHeight, max_eq_right (by norm_num)]
  refine ⟨?_, ?_, rfl, ?_⟩
  · rw [htilt0, minimumTilt]
    linarith [Real.pi_gt_three]
  · rw [htilt0, maximumTilt, minimumTilt]
    linarith [Real.pi_gt_three]
  · rw [currentTiltAngle, rotate_upVector, hrot]
    show Real.arccos (Vec3.dot (Vec3.normalize ⟨0, 0, 1⟩)
      (Vec3.normalize ⟨0, 0, 1 / 10⟩)) < minimumTilt
    have hn : Vec3.normalize ⟨0, 0, 1 / 10⟩ = ⟨0, 0, 1⟩ := by
      rw [Vec3.normalize_eq ⟨0, 0, 1 / 10⟩ (1 / 10) (by norm_num)
        (by norm_num [Vec3.normSq])]
      norm_num [Vec3.smul]
    rw [Vec3.normalize_unitZ, hn]
    norm_num [Vec3.dot, Real.arccos_one, minimumTilt]

/-- Witness for C1 at a pose already past the minimum tilt (position
parallel to up, tilt `0`) and a drag whose tilt step is negative: the guard
fires and the whole update is aborted. -/
theorem C1_witness :
    (currentTiltAngle (mkCamState ⟨0, 0, 1⟩ defaultFocus defaultUp
        ⟨0, 0⟩ true) < minimumTilt ∧
      (rotatePhi (mkCamState ⟨0, 0, 1⟩ defaultFocus defaultUp ⟨0, 0⟩ true)
        ⟨0, 1 / 60⟩).y < 0) ∧
    rotate (mkCamState ⟨0, 0, 1⟩ defaultFocus defaultUp ⟨0, 0⟩ true)
        ⟨0, 1 / 60⟩ =
      mkCamState ⟨0, 0, 1⟩ defaultFocus defaultUp ⟨0, 0⟩ true := by
  have h1 : currentTiltAngle (mkCamState ⟨0, 0, 1⟩ defaultFocus defaultUp
      ⟨0, 0⟩ true) < minimumTilt := by
    rw [currentTiltAngle]
    show Real.arccos (Vec3.dot (Vec3.normalize ⟨0, 0, 1⟩)
      (Vec3.normalize ⟨0, 0, 1⟩)) < minimumTilt
    rw [Vec3.normalize_unitZ]
    norm_num [Vec3.dot, Real.arccos_one, minimumTilt]
  have h2 : (rotatePhi (mkCamState ⟨0, 0, 1⟩ defaultFocus defaultUp
      ⟨0, 0⟩ true) ⟨0, 1 / 60⟩).y < 0 := by
    rw [rotatePhi]
    show 2 * Real.arcsin (max (min ((60 : ℝ) * (0 - 1 / 60)) 1) (-1)) < 0
    norm_num [min_def, max_def, Real.arcsin_neg_one]
    linarith [Real.pi_pos]
  exact ⟨⟨h1, h2⟩,
    C1_amended (mkCamState ⟨0, 0, 1⟩ defaultFocus defaultUp ⟨0, 0⟩ true)
      ⟨0, 1 / 60⟩ (Or.inr ⟨h1, h2⟩)⟩

theorem Vec3.sub_eq_zero_iff (a b : Vec3) :
    Vec3.sub a b = ⟨0, 0, 0⟩ ↔ a = b := by
  obtain ⟨a1, a2, a3⟩ := a
  obtain ⟨b1, b2, b3⟩ := b
  simp [Vec3.sub, Vec3.mk.injEq, sub_eq_zero]

/-- Claim C3, amended: after a moving zoom drag with the limit enabled the
vertical coordinate is always at least `minimumHeight`, and the
distance-clamped position (before the final height clamp) always lies
within `[minimumDistance, maximumDistance]`; the final position keeps that
distance range whenever the height clamp leaves its vertical coordinate
unchanged — when the height clamp does modify it, the final distance can
leave the range. -/
theorem C3_amended (s : CamState) (newMouse : Vec2)
    (hm : newMouse ≠ s.oldMousePosition)
    (hlim : s.limitCameraPosition = true)
    (hpf : s.position ≠ s.focus) :
    minimumHeight ≤ ((zoom s newMouse).position).z ∧
    (minimumDistance ≤ Vec3.norm (zoomDistClamped s newMouse) ∧
      Vec3.norm (zoomDistClamped s newMouse) ≤ maximumDistance) ∧
    (minimumHeight ≤ (zoomDistClamped s newMouse).z →
      minimumDistance ≤ Vec3.norm ((zoom s newMouse).position) ∧
      Vec3.norm ((zoom s newMouse).position) ≤ maximumDistance) := by
  have hpv : Vec3.sub s.position s.focus ≠ ⟨0, 0, 0⟩ := by
    rw [ne_eq, Vec3.sub_eq_zero_iff]
    exact hpf
  have hnn : Vec3.norm (Vec3.normalize (Vec3.sub s.position s.focus)) = 1 :=
    Vec3.norm_normalize _ hpv
  have hzoom : (zoom s newMouse).position =
      { zoomDistClamped s newMouse with
        z := max (zoomDistClamped s newMouse).z minimumHeight } := by
    rw [zoom, if_neg hm]
    simp only [updateViewProjectionMatrix_position, hlim]
    simp
  have hmaxpos : (0 : ℝ) < maximumDistance := by
    rw [maximumDistance, skyboxSize]; norm_num
  have hminpos : (0 : ℝ) < minimumDistance := by
    rw [minimumDistance]; norm_num
  have hminmax : minimumDistance ≤ maximumDistance := by
    rw [minimumDistance, maximumDistance, skyboxSize]; norm_num
  have hb : minimumDistance ≤ Vec3.norm (zoomDistClamped s newMouse) ∧
      Vec3.norm (zoomDistClamped s newMouse) ≤ maximumDistance := by
    simp only [zoomDistClamped]
    by_cases h1 : Vec3.norm (zoomScaled s newMouse) > maximumDistance
    · rw [if_pos h1]
      have hna : Vec3.norm (Vec3.smul maximumDistance
          (Vec3.normalize (Vec3.sub s.position s.focus))) = maximumDistance := by
        rw [Vec3.norm_smul, hnn, mul_one]
        exact abs_of_pos hmaxpos
      rw [if_neg (by rw [hna]; exact not_lt.mpr hminmax), hna]
      exact ⟨hminmax, le_refl _⟩
    · rw [if_neg h1]
      push_neg at h1
      by_cases h2 : Vec3.norm (zoomScaled s newMouse) < minimumDistance
      · rw [if_pos h2]
        have hnb : Vec3.norm (Vec3.smul minimumDistance
            (Vec3.normalize (Vec3.sub s.position s.focus))) =
            minimumDistance := by
          rw [Vec3.norm_smul, hnn, mul_one]
          exact abs_of_pos hminpos
        rw [hnb]
        exact ⟨le_refl _, hminmax⟩
      · rw [if_neg h2]
        push_neg at h2
        exact ⟨h2, h1⟩
  refine ⟨?_, hb, ?_⟩
  · rw [hzoom]
    exact le_max_right _ _
  · intro hcz
    have heq : (zoom s newMouse).position = zoomDistClamped s newMouse := by
      rw [hzoom, max_eq_left hcz]
    rw [heq]
    exact hb

/-- Witness for C3: a moving zoom drag with `t = 1/10` from the default
pose with the limit enabled. -/
theorem C3_witness :
    minimumHeight ≤ ((zoom (mkCamState defaultPosition defaultFocus
      defaultUp ⟨0, 1 / 2⟩ true) ⟨0, 3 / 5⟩).position).z ∧
    (minimumDistance ≤ Vec3.norm (zoomDistClamped
        (mkCamState defaultPosition defaultFocus defaultUp
          ⟨0, 1 / 2⟩ true) ⟨0, 3 / 5⟩) ∧
      Vec3.norm (zoomDistClamped (mkCamState defaultPosition defaultFocus
        defaultUp ⟨0, 1 / 2⟩ true) ⟨0, 3 / 5⟩) ≤ maximumDistance) ∧
    (minimumHeight ≤ (zoomDistClamped (mkCamState defaultPosition
        defaultFocus defaultUp ⟨0, 1 / 2⟩ true) ⟨0, 3 / 5⟩).z →
      minimumDistance ≤ Vec3.norm ((zoom (mkCamState defaultPosition
        defaultFocus defaultUp ⟨0, 1 / 2⟩ true) ⟨0, 3 / 5⟩).position) ∧
      Vec3.norm ((zoom (mkCamState defaultPosition defaultFocus defaultUp
        ⟨0, 1 / 2⟩ true) ⟨0, 3 / 5⟩).position) ≤ maximumDistance) := by
  refine C3_amended _ _ ?_ rfl ?_
  · show (⟨0, 3 / 5⟩ : Vec2) ≠ ⟨0, 1 / 2⟩
    simp only [ne_eq, Vec2.mk.injEq, not_and]
    intro _
    norm_num
  · show (⟨-1, 0, 1⟩ : Vec3) ≠ ⟨0, 0, 0⟩
    simp only [ne_eq, Vec3.mk.injEq, not_and]
    intro h
    norm_num at h

/-- Claim C3, counterexample: with the limit enabled, zooming in from the
pose `position = (0, 3/20, -1/5)` (distance exactly `minimumDistance`) with
`t = -1/2` triggers the minimum-distance clamp and then the height clamp,
and the final distance `√13/20 ≈ 0.18` is strictly below
`minimumDistance = 1/4`. -/
theorem C3_counterexample :
    (mkCamState ⟨0, 3 / 20, -1 / 5⟩ defaultFocus defaultUp
      ⟨0, 1 / 2⟩ true).limitCameraPosition = true ∧
    Vec3.norm ((zoom (mkCamState ⟨0, 3 / 20, -1 / 5⟩ defaultFocus defaultUp
      ⟨0, 1 / 2⟩ true) ⟨0, 0⟩).position) < minimumDistance := by
  have hm : (⟨0, 0⟩ : Vec2) ≠ (mkCamState ⟨0, 3 / 20, -1 / 5⟩ defaultFocus
      defaultUp ⟨0, 1 / 2⟩ true).oldMousePosition := by
    show (⟨0, 0⟩ : Vec2) ≠ ⟨0, 1 / 2⟩
    simp only [ne_eq, Vec2.mk.injEq, not_and]
    intro _
    norm_num
  have hscaled : zoomScaled (mkCamState ⟨0, 3 / 20, -1 / 5⟩ defaultFocus
      defaultUp ⟨0, 1 / 2⟩ true) ⟨0, 0⟩ = ⟨0, 3 / 40, -1 / 10⟩ := by
    rw [zoomScaled]
    show Vec3.smul (1 + ((0 : ℝ) - 1 / 2))
      (Vec3.sub ⟨0, 3 / 20, -1 / 5⟩ ⟨0, 0, 0⟩) = ⟨0, 3 / 40, -1 / 10⟩
    unfold Vec3.sub Vec3.smul
    norm_num
  have hnsc : Vec3.norm (⟨0, 3 / 40, -1 / 10⟩ : Vec3) = 1 / 8 :=
    Vec3.norm_of_sq _ (1 / 8) (by norm_num) (by norm_num [Vec3.normSq])
  have hnpv : Vec3.normalize (Vec3.sub
      (mkCamState ⟨0, 3 / 20, -1 / 5⟩ defaultFocus defaultUp
        ⟨0, 1 / 2⟩ true).position
      (mkCamState ⟨0, 3 / 20, -1 / 5⟩ defaultFocus defaultUp
        ⟨0, 1 / 2⟩ true).focus) = ⟨0, 3 / 5, -4 / 5⟩ := by
    have hsub : Vec3.sub (⟨0, 3 / 20, -1 / 5⟩ : Vec3) ⟨0, 0, 0⟩ =
        ⟨0, 3 / 20, -1 / 5⟩ := Vec3.sub_zero_vec _
    show Vec3.normalize (Vec3.sub (⟨0, 3 / 20, -1 / 5⟩ : Vec3) ⟨0, 0, 0⟩) =
      ⟨0, 3 / 5, -4 / 5⟩
    rw [hsub, Vec3.normalize_eq ⟨0, 3 / 20, -1 / 5⟩ (1 / 4) (by norm_num)
      (by norm_num [Vec3.normSq])]
    unfold Vec3.smul
    norm_num
  have hclamped : zoomDistClamped (mkCamState ⟨0, 3 / 20, -1 / 5⟩
      defaultFocus defaultUp ⟨0, 1 / 2⟩ true) ⟨0, 0⟩ =
      ⟨0, 3 / 20, -1 / 5⟩ := by
    simp only [zoomDistClamped]
    rw [hscaled, hnsc]
    rw [if_neg (show ¬((1 : ℝ) / 8 > maximumDistance) by
      rw [maximumDistance, skyboxSize]; norm_num)]
    rw [hnsc]
    rw [if_pos (show (1 : ℝ) / 8 < minimumDistance by
      rw [minimumDistance]; norm_num)]
    rw [hnpv]
    unfold Vec3.smul minimumDistance
    norm_num
  have hfinal : (zoom (mkCamState ⟨0, 3 / 20, -1 / 5⟩ defaultFocus defaultUp
      ⟨0, 1 / 2⟩ true) ⟨0, 0⟩).position = ⟨0, 3 / 20, 1 / 10⟩ := by
    rw [zoom, if_neg hm]
    simp only [updateViewProjectionMatrix_position]
    show (if true = true then _ else _) = _
    rw [if_pos rfl, hclamped]
    show Vec3.mk 0 (3 / 20) (max (-1 / 5) minimumHeight) = ⟨0, 3 / 20, 1 / 10⟩
    rw [minimumHeight, max_eq_right (by norm_num)]
  refine ⟨rfl, ?_⟩
  rw [hfinal, Vec3.norm]
  rw [show Vec3.normSq ⟨0, 3 / 20, 1 / 10⟩ = 13 / 400 by
    norm_num [Vec3.normSq]]
  rw [minimumDistance, Real.sqrt_lt' (by norm_num)]
  norm_num

theorem Vec3.normalize_zero_vec : Vec3.normalize ⟨0, 0, 0⟩ = ⟨0, 0, 0⟩ := by
  simp [Vec3.normalize, Vec3.smul]

theorem Vec3.smul_eq_zero_iff (c : ℝ) (v : Vec3) :
    Vec3.smul c v = ⟨0, 0, 0⟩ ↔ c = 0 ∨ v = ⟨0, 0, 0⟩ := by
  obtain ⟨x, y, z⟩ := v
  simp only [Vec3.smul, Vec3.mk.injEq, mul_eq_zero]
  tauto

theorem rotate_position_normSq (s : CamState) (newMouse : Vec2)
    (hu : s.upVector = defaultUp) (hlim : s.limitCameraPosition = false) :
    Vec3.normSq ((rotate s newMouse).position) = Vec3.normSq s.position := by
  rw [rotate]
  split
  · rfl
  split
  · rfl
  simp only [updateViewProjectionMatrix_position, hlim, Bool.false_eq_true,
    if_false]
  rw [hu]
  by_cases hc : Vec3.cross defaultUp s.position = ⟨0, 0, 0⟩
  · rw [hc, Vec3.normalize_zero_vec]
    generalize hgen : s.position = p
    rw [hgen] at hc
    obtain ⟨px, py, pz⟩ := p
    simp only [defaultUp, Vec3.cross, Vec3.mk.injEq] at hc
    norm_num at hc
    obtain ⟨hy, hx⟩ := hc
    simp only [defaultUp, Quat.angleAxis, Quat.mul, Quat.rotateVec,
      Vec3.cross, Vec3.add, Vec3.smul, Vec3.normSq, hx, hy]
    ring
  · have h1 : Quat.normSq (Quat.angleAxis
        ((rotatePhi s newMouse).x) defaultUp) = 1 :=
      Quat.normSq_angleAxis _ _ (by norm_num [defaultUp, Vec3.normSq])
    have h2 : Quat.normSq (Quat.angleAxis ((rotatePhi s newMouse).y)
        (Vec3.normalize (Vec3.cross defaultUp s.position))) = 1 :=
      Quat.normSq_angleAxis _ _ (Vec3.normSq_normalize _ hc)
    exact Quat.rotateVec_normSq _ _
      (by rw [Quat.normSq_mul, h1, h2, mul_one])

theorem rotate_pos_ne_focus (s : CamState) (newMouse : Vec2)
    (hf : s.focus = ⟨0, 0, 0⟩) (hu : s.upVector = defaultUp)
    (hp : s.position ≠ s.focus) :
    (rotate s newMouse).position ≠ (rotate s newMouse).focus := by
  rw [rotate_focus, hf]
  have hp0 : s.position ≠ ⟨0, 0, 0⟩ := by rw [← hf]; exact hp
  cases hlim : s.limitCameraPosition
  · have hns := rotate_position_normSq s newMouse hu hlim
    intro heq
    rw [heq] at hns
    have h0 : Vec3.normSq s.position = 0 := by
      rw [← hns]
      norm_num [Vec3.normSq]
    exact hp0 ((Vec3.normSq_eq_zero_iff _).mp h0)
  · rw [rotate]
    split
    · exact hp0
    split
    · exact hp0
    simp only [updateViewProjectionMatrix_position, hlim, if_true]
    intro heq
    rw [Vec3.mk.injEq] at heq
    obtain ⟨-, -, hz⟩ := heq
    have h1 : minimumHeight ≤ (0 : ℝ) := by
      rw [← hz]
      exact le_max_right _ _
    rw [minimumHeight] at h1
    linarith

theorem zoom_pos_ne_focus (s : CamState) (newMouse : Vec2)
    (hf : s.focus = ⟨0, 0, 0⟩) (hp : s.position ≠ s.focus)
    (h : s.limitCameraPosition = true ∨
      newMouse.y - s.oldMousePosition.y ≠ -1) :
    (zoom s newMouse).position ≠ (zoom s newMouse).focus := by
  rw [zoom_focus, hf]
  have hp0 : s.position ≠ ⟨0, 0, 0⟩ := by rw [← hf]; exact hp
  by_cases hm : newMouse = s.oldMousePosition
  · rw [zoom, if_pos hm]
    exact hp0
  rw [zoom, if_neg hm]
  simp only [updateViewProjectionMatrix_position]
  cases hlim : s.limitCameraPosition
  · have ht : newMouse.y - s.oldMousePosition.y ≠ -1 :=
      h.resolve_left (by rw [hlim]; simp)
    simp only [hlim, Bool.false_eq_true, if_false]
    rw [zoomScaled, hf, Vec3.sub_zero_vec]
    rw [ne_eq, Vec3.smul_eq_zero_iff]
    push_neg
    constructor
    · intro h0
      exact ht (by linarith)
    · exact hp0
  · simp only [hlim, if_true]
    intro heq
    rw [Vec3.mk.injEq] at heq
    obtain ⟨-, -, hz⟩ := heq
    have h1 : minimumHeight ≤ (0 : ℝ) := by
      rw [← hz]
      exact le_max_right _ _
    rw [minimumHeight] at h1
    linarith

/-- Claim C10, amended: the invariant `position ≠ focus` is established by
the default pose at startup and preserved by every orbit update (for the
reachable camera frames: focus at the origin, the default unit up vector);
a zoom update preserves it when the limit is enabled or the drag factor
`t = newMouse.y - oldMouse.y` differs from `-1`, but a zoom with the limit
disabled and `t = -1` collapses the position onto the focus; the up vector
is never mutated by either update. -/
theorem C10_amended :
    (∀ s : CamState,
      (initializeGLCamera s).position ≠ (initializeGLCamera s).focus) ∧
    (∀ (s : CamState) (newMouse : Vec2),
      s.focus = ⟨0, 0, 0⟩ → s.upVector = defaultUp → s.position ≠ s.focus →
      ((rotate s newMouse).position ≠ (rotate s newMouse).focus ∧
        (rotate s newMouse).upVector = s.upVector ∧
        (zoom s newMouse).upVector = s.upVector ∧
        ((s.limitCameraPosition = true ∨
            newMouse.y - s.oldMousePosition.y ≠ -1) →
          (zoom s newMouse).position ≠ (zoom s newMouse).focus))) := by
  constructor
  · intro s
    show (⟨-1, 0, 1⟩ : Vec3) ≠ ⟨0, 0, 0⟩
    simp only [ne_eq, Vec3.mk.injEq, not_and]
    intro hcontr
    norm_num at hcontr
  · intro s newMouse hf hu hp
    exact ⟨rotate_pos_ne_focus s newMouse hf hu hp, rotate_upVector s newMouse,
      zoom_upVector s newMouse,
      fun h => zoom_pos_ne_focus s newMouse hf hp h⟩

/-- Claim C10, counterexample: a zoom drag from `(0, 1/2)` to `(0, -1/2)`
(`t = -1`) with the limit disabled maps the default position onto the focus,
violating `position ≠ focus`. -/
theorem C10_counterexample :
    (zoom (mkCamState defaultPosition defaultFocus defaultUp
      ⟨0, 1 / 2⟩ false) ⟨0, -1 / 2⟩).position =
    (zoom (mkCamState defaultPosition defaultFocus defaultUp
      ⟨0, 1 / 2⟩ false) ⟨0, -1 / 2⟩).focus := by
  rw [zoom_focus]
  have hm : (⟨0, -1 / 2⟩ : Vec2) ≠ (mkCamState defaultPosition defaultFocus
      defaultUp ⟨0, 1 / 2⟩ false).oldMousePosition := by
    show (⟨0, -1 / 2⟩ : Vec2) ≠ ⟨0, 1 / 2⟩
    simp only [ne_eq, Vec2.mk.injEq, not_and]
    intro _
    norm_num
  rw [zoom, if_neg hm]
  simp only [updateViewProjectionMatrix_position]
  show (if false = true then _ else _) = _
  rw [if_neg (by simp)]
  rw [zoomScaled]
  show Vec3.smul (1 + (-1 / 2 - 1 / 2)) (Vec3.sub ⟨-1, 0, 1⟩ ⟨0, 0, 0⟩) =
    (⟨0, 0, 0⟩ : Vec3)
  unfold Vec3.sub Vec3.smul
  norm_num

/-- Witness for C10 at the default pose, the default load of hypotheses,
and a concrete moving drag. -/
theorem C10_witness :
    (initializeGLCamera (mkCamState defaultPosition defaultFocus defaultUp
      ⟨0, 0⟩ true)).position ≠
      (initializeGLCamera (mkCamState defaultPosition defaultFocus defaultUp
        ⟨0, 0⟩ true)).focus ∧
    ((rotate (mkCamState defaultPosition defaultFocus defaultUp ⟨0, 0⟩ true)
        ⟨1 / 4, 1 / 4⟩).position ≠
      (rotate (mkCamState defaultPosition defaultFocus defaultUp ⟨0, 0⟩ true)
        ⟨1 / 4, 1 / 4⟩).focus ∧
      (rotate (mkCamState defaultPosition defaultFocus defaultUp ⟨0, 0⟩ true)
        ⟨1 / 4, 1 / 4⟩).upVector =
        (mkCamState defaultPosition defaultFocus defaultUp
          ⟨0, 0⟩ true).upVector ∧
      (zoom (mkCamState defaultPosition defaultFocus defaultUp ⟨0, 0⟩ true)
        ⟨1 / 4, 1 / 4⟩).upVector =
        (mkCamState defaultPosition defaultFocus defaultUp
          ⟨0, 0⟩ true).upVector ∧
      (((mkCamState defaultPosition defaultFocus defaultUp
          ⟨0, 0⟩ true).limitCameraPosition = true ∨
          (⟨1 / 4, 1 / 4⟩ : Vec2).y - (mkCamState defaultPosition defaultFocus
            defaultUp ⟨0, 0⟩ true).oldMousePosition.y ≠ -1) →
        (zoom (mkCamState defaultPosition defaultFocus defaultUp
          ⟨0, 0⟩ true) ⟨1 / 4, 1 / 4⟩).position ≠
          (zoom (mkCamState defaultPosition defaultFocus defaultUp
            ⟨0, 0⟩ true) ⟨1 / 4, 1 / 4⟩).focus)) :=
  ⟨C10_amended.1 _,
    C10_amended.2 (mkCamState defaultPosition defaultFocus defaultUp
      ⟨0, 0⟩ true) ⟨1 / 4, 1 / 4⟩ rfl rfl
      (by
        show (⟨-1, 0, 1⟩ : Vec3) ≠ ⟨0, 0, 0⟩
        simp only [ne_eq, Vec3.mk.injEq, not_and]
        intro hcontr
        norm_num at hcontr)⟩
